import Mathlib

/-!
# The front-door router of `server/server.go`

A shallow embedding of `Start`, `newAuthed` and `connectHandlers`: the two
route tables they assemble, the handlers they bind, and the order in which
`Start` constructs its collaborators.  Route matching follows the ordered
first-match discipline of the router library the file uses.
-/

namespace Server

set_option linter.constructorNameAsVariable false

/-! ## Path templates -/

/-- One piece of a path template: literal text, or a `{name}` variable, which
stands for one or more characters other than `/`. -/
inductive Seg where
  | lit (s : String)
  | var (name : String)
  deriving DecidableEq, Repr

/-- A `{name}` variable followed by the continuation `k`: the variable takes a
non-empty run of characters without `/`, and `k` must accept what is left. -/
def matchVar (k : List Char → Bool) : List Char → Bool
  | [] => false
  | c :: cs => c != '/' && (k cs || matchVar k cs)

/-- Modelled from the spec: the router library's template matcher is not part
of the source file.  A template matches from the start of the path; when
`anchored` (a `Path`/`Handle` entry, the spec's Exact kind) it must use the
whole path, otherwise (a `PathPrefix` entry, the spec's Prefix kind) any
remainder is accepted. -/
def matchSegs (anchored : Bool) : List Seg → List Char → Bool
  | [], cs => !anchored || cs.isEmpty
  | .lit s :: rest, cs =>
      s.data.isPrefixOf cs && matchSegs anchored rest (cs.drop s.data.length)
  | .var _ :: rest, cs => matchVar (matchSegs anchored rest) cs

/-! ## Route tables -/

/-- A route entry: a template, its match kind, a method filter (empty = any
method) and the handler it is bound to. -/
structure Route (H : Type) where
  tpl : List Seg
  anchored : Bool
  methods : List String
  handler : H
  deriving DecidableEq, Repr

/-- The `http.MethodGet` constant. -/
def MethodGet : String := "GET"

/-- The entry `router.Handle(path, h)` / `router.Path(path).Handler(h)`: exact
match, any method. -/
def Handle {H : Type} (path : String) (h : H) : Route H :=
  ⟨[.lit path], true, [], h⟩

/-- The entry `router.PathPrefix(path).Handler(h)`: prefix match, any method. -/
def PathPrefix {H : Type} (path : String) (h : H) : Route H :=
  ⟨[.lit path], false, [], h⟩

/-- The `.Methods(ms...)` restriction of an entry. -/
def Route.Methods {H : Type} (r : Route H) (ms : List String) : Route H :=
  { r with methods := ms }

/-- Whether the entry's pattern (template and match kind) matches the path. -/
def Route.matchesPath {H : Type} (r : Route H) (path : String) : Bool :=
  matchSegs r.anchored r.tpl path.data

/-- Whether the entry's method filter admits the method. -/
def Route.admits {H : Type} (r : Route H) (method : String) : Bool :=
  r.methods.isEmpty || r.methods.contains method

/-- Whether the entry matches the request: pattern and method filter both. -/
def Route.matches {H : Type} (r : Route H) (method path : String) : Bool :=
  r.matchesPath path && r.admits method

/-- A router: its entries in registration order and its `NotFoundHandler`
field (`none` when never assigned). -/
structure Router (H : Type) where
  routes : List (Route H)
  NotFoundHandler : Option H
  deriving DecidableEq, Repr

/-- The empty router of `mux.NewRouter()`. -/
def NewRouter {H : Type} : Router H := ⟨[], none⟩

/-- Registering an entry appends it to the table. -/
def Router.add {H : Type} (r : Router H) (e : Route H) : Router H :=
  { r with routes := r.routes ++ [e] }

/-- The assignment `router.NotFoundHandler = h`. -/
def Router.setNotFoundHandler {H : Type} (r : Router H) (h : H) : Router H :=
  { r with NotFoundHandler := some h }

/-- Modelled from the spec: `match(method, path)` of the route table, whose
implementation is the router library's.  Entries are tried in insertion
order and the first whose pattern and method filter satisfy the request
wins. -/
def Router.route {H : Type} (r : Router H) (method path : String) : Option (Route H) :=
  r.routes.find? (fun e => e.matches method path)

/-- Position of the entry the table selects, when one matches. -/
def Router.routeIdx {H : Type} (r : Router H) (method path : String) : Option Nat :=
  r.routes.findIdx? (fun e => e.matches method path)

/-- The handler the table answers a request with: the selected entry's
handler, or on no match the `NotFoundHandler` field (`none`: the library's
built-in 404, no handler of this program). -/
def Router.dispatch {H : Type} (r : Router H) (method path : String) : Option H :=
  match r.route method path with
  | some e => some e.handler
  | none => r.NotFoundHandler

/-- The path begins with the given text. -/
def beginsWith (path pre : String) : Bool :=
  pre.data.isPrefixOf path.data

/-! ## Handlers -/

/-- The response decorators `Start` composes. -/
inductive Middleware where
  | Gzip
  | NoCache
  | ContentType
  | UI
  | CacheMiddleware (exts : List String)
  deriving DecidableEq, Repr

/-- Terminal handlers: collaborators that `Start`, `newAuthed` and
`connectHandlers` obtain from other packages.  They are opaque here; what is
known of them is where they are bound. -/
inductive Leaf where
  /-- The result of `tokens.NewAPIHandler`. -/
  | tokenAPI
  /-- The result of `publicapi.NewHandler`. -/
  | publicAPI
  /-- The result of `k8sProxyPkg.New`. -/
  | k8sProxy
  /-- The result of `managementapi.New`. -/
  | managementAPI
  /-- The result of `hooks.New`. -/
  | webhookHandler
  /-- The result of `saml.AuthHandler`. -/
  | samlRoot
  /-- The function `clusterregistrationtokens.ClusterImportHandler`. -/
  | ClusterImportHandler
  /-- The field `TunnelServer` of the tunnel factory. -/
  | TunnelServer
  /-- The result of `rkenodeconfigserver.Handler` on the factory's authorizer. -/
  | nodeConfig
  /-- The standard library's `http.NotFoundHandler()`, which replies 404. -/
  | NotFoundHandler
  /-- The result of `ui.Content`. -/
  | Content
  /-- A handler bound by `registerHealth`. -/
  | health (name : String)
  | GKEMachineTypesHandler
  | GKEVersionsHandler
  | GKEZonesHandler
  | AKSVersionsHandler
  | AKSVirtualNetworksHandler
  /-- The result of `newProxy`: the proxy restricted by the whitelist. -/
  | newProxy
  /-- The result of `telemetry.NewProxy`. -/
  | telemetryProxy
  deriving DecidableEq, Repr

/-- Handlers bound in the root table. -/
inductive Handler where
  | leaf (h : Leaf)
  | chain (ms : List Middleware) (h : Handler)
  | router (r : Router Leaf)
  | authFilter (inner : Handler)
  deriving DecidableEq, Repr

/-- Whether the handler is the result of applying a middleware chain. -/
def Handler.wrapped : Handler → Bool
  | .chain _ _ => true
  | _ => false

/-! ## The program -/

/-- The injected dialer: the tunnel factory (`*rancherdialer.Factory`) or any
other implementation. -/
inductive Dialer where
  | factory
  | other
  deriving DecidableEq, Repr

/-- One entry registered by `registerHealth`. -/
structure HealthCheck where
  tpl : List Seg
  anchored : Bool
  methods : List String
  name : String
  deriving DecidableEq, Repr

/-- What the file takes from its surroundings when it assembles the tables:
the dialer of the scaled context, `managementSchema.Version.Path`, and the
entries `registerHealth` adds. -/
structure Config where
  dialer : Dialer
  versionPath : String
  health : List HealthCheck
  deriving Repr

/-- The function `connectHandlers`: the tunnel server and the node-config
handler when the dialer is the tunnel factory, `http.NotFoundHandler()` twice
otherwise. -/
def connectHandlers (d : Dialer) : Handler × Handler :=
  match d with
  | .factory => (.leaf .TunnelServer, .leaf .nodeConfig)
  | .other => (.leaf .NotFoundHandler, .leaf .NotFoundHandler)

/-- The function `newAuthed`: the table of the authenticated APIs.  The
constant `managementSchema.Version.Path` is the parameter `versionPath`, read
as literal text. -/
def newAuthed (tokenAPI managementAPI k8sproxy : Leaf) (versionPath : String) : Router Leaf :=
  (NewRouter : Router Leaf)
    |>.add (Handle "/meta/gkeMachineTypes" .GKEMachineTypesHandler)
    |>.add (Handle "/meta/gkeVersions" .GKEVersionsHandler)
    |>.add (Handle "/meta/gkeZones" .GKEZonesHandler)
    |>.add (Handle "/meta/aksVersions" .AKSVersionsHandler)
    |>.add (Handle "/meta/aksVirtualNetworks" .AKSVirtualNetworksHandler)
    |>.add (PathPrefix "/meta/proxy" .newProxy)
    |>.add (PathPrefix "/meta" managementAPI)
    |>.add (PathPrefix "/v3/identit" tokenAPI)
    |>.add (PathPrefix "/v3/token" tokenAPI)
    |>.add (PathPrefix "/k8s/clusters/" k8sproxy)
    |>.add (PathPrefix "/v1-telemetry" .telemetryProxy)
    |>.add (PathPrefix versionPath managementAPI)

/-- The table `rawAuthedAPIs` of `Start`. -/
def rawAuthedAPIs (cfg : Config) : Handler :=
  .router (newAuthed .tokenAPI .managementAPI .k8sProxy cfg.versionPath)

/-- The Auth Gate `authedHandler` of `Start`: the authentication filter around
`rawAuthedAPIs`. -/
def authedHandler (cfg : Config) : Handler :=
  .authFilter (rawAuthedAPIs cfg)

/-- The baseline chain `chain` of `Start`. -/
def chain : List Middleware := [.Gzip, .NoCache, .ContentType, .UI]

/-- The static-asset handler `uiContent` of `Start`. -/
def uiContent : Handler :=
  .chain [.Gzip, .CacheMiddleware ["json", "js", "css"]] (.leaf .Content)

/-- Modelled from the spec: `registerHealth` is defined outside the source
file; the spec lists a health endpoint (liveness probe) on the HTTP surface.
It registers the given entries, each bound to a handler of its own. -/
def registerHealth (hs : List HealthCheck) (r : Router Handler) : Router Handler :=
  hs.foldl (fun acc h => acc.add ⟨h.tpl, h.anchored, h.methods, .leaf (.health h.name)⟩) r

/-- The router `root` as `Start` hands it to the listener. -/
def root (cfg : Config) : Router Handler :=
  (NewRouter : Router Handler)
    |>.add (Handle "/" (.chain chain (.leaf .managementAPI)))
    |>.add (PathPrefix "/v3-public" (.leaf .publicAPI))
    -- the template "/v3/import/{token}.yaml"
    |>.add ⟨[.lit "/v3/import/", .var "token", .lit ".yaml"], true, [], .leaf .ClusterImportHandler⟩
    |>.add (Handle "/v3/connect" (connectHandlers cfg.dialer).1)
    |>.add (Handle "/v3/connect/register" (connectHandlers cfg.dialer).1)
    |>.add (Handle "/v3/connect/config" (connectHandlers cfg.dialer).2)
    |>.add ((Handle "/v3/settings/cacerts" (rawAuthedAPIs cfg)).Methods [MethodGet])
    |>.add ((Handle "/v3/settings/first-login" (rawAuthedAPIs cfg)).Methods [MethodGet])
    |>.add ((Handle "/v3/settings/ui-pl" (rawAuthedAPIs cfg)).Methods [MethodGet])
    |>.add (PathPrefix "/v3" (authedHandler cfg))
    |>.add (PathPrefix "/hooks" (.leaf .webhookHandler))
    |>.add (PathPrefix "/k8s/clusters/" (authedHandler cfg))
    |>.add (PathPrefix "/meta" (authedHandler cfg))
    |>.add (PathPrefix "/v1-telemetry" (authedHandler cfg))
    |>.setNotFoundHandler (.chain chain (.leaf .NotFoundHandler))
    |>.add (PathPrefix "/v1-saml" (.leaf .samlRoot))
    |>.add (PathPrefix "/assets" uiContent)
    |>.add (PathPrefix "/translations" uiContent)
    |>.add (Handle "/humans.txt" uiContent)
    |>.add (Handle "/index.html" uiContent)
    |>.add (Handle "/robots.txt" uiContent)
    |>.add (Handle "/VERSION.txt" uiContent)
    |>.add (PathPrefix "/api-ui" uiContent)
    |> registerHealth cfg.health

/-- Calls `Start` makes to collaborators, in source order. -/
inductive Call where
  | tokensNewAPIHandler
  | publicapiNewHandler
  | k8sProxyNew
  | managementapiNew
  | newAuthed
  | NewAuthenticationFilter
  | hooksNew
  | connectHandlers
  | samlAuthHandler
  | uiContent
  | registerHealth
  | dynamiclistenerStart
  deriving DecidableEq, Repr

/-- The `err` each fallible constructor returns when called (`none` = nil). -/
structure Deps where
  tokensNewAPIHandler : Option String
  publicapiNewHandler : Option String
  managementapiNew : Option String
  NewAuthenticationFilter : Option String
  deriving DecidableEq, Repr

/-- What a run of `Start` has done so far: the calls made, and the router
handed to `dynamiclistener.Start` once that call is made. -/
structure Trace where
  calls : List Call
  served : Option (Router Handler)

/-- Computations of `Start`: they record calls and may stop with an error. -/
abbrev Boot := ExceptT String (StateM Trace)

/-- A call to a collaborator that cannot fail. -/
def call (c : Call) : Boot Unit :=
  modify fun t => { t with calls := t.calls ++ [c] }

/-- A call to a constructor returning `(handler, err)`, followed by
`if err != nil { return err }`. -/
def fallible (c : Call) (err : Option String) : Boot Unit := do
  call c
  match err with
  | some e => throw e
  | none => pure ()

/-- The call `dynamiclistener.Start(ctx, scaledContext, httpPort, httpsPort, root)`. -/
def listen (r : Router Handler) : Boot Unit :=
  modify fun t => { calls := t.calls ++ [.dynamiclistenerStart], served := some r }

/-- The body of `Start`, statement by statement. -/
def StartBody (deps : Deps) (cfg : Config) : Boot Unit := do
  fallible .tokensNewAPIHandler deps.tokensNewAPIHandler
  fallible .publicapiNewHandler deps.publicapiNewHandler
  call .k8sProxyNew
  fallible .managementapiNew deps.managementapiNew
  call .newAuthed
  fallible .NewAuthenticationFilter deps.NewAuthenticationFilter
  call .hooksNew
  call .connectHandlers
  call .samlAuthHandler
  call .uiContent
  call .registerHealth
  listen (root cfg)

/-- What a run of `Start` did: the calls made, the router handed to
`dynamiclistener.Start` (if it got that far), and the returned error. -/
structure Outcome where
  calls : List Call
  served : Option (Router Handler)
  err : Option String

/-- The function `Start`, run from an empty trace. -/
def Start (deps : Deps) (cfg : Config) : Outcome :=
  match (StartBody deps cfg).run.run ⟨[], none⟩ with
  | (.error e, t) => ⟨t.calls, t.served, some e⟩
  | (.ok _, t) => ⟨t.calls, t.served, none⟩

/-- A configuration without tunnel support and without health entries. -/
def plainConfig : Config := ⟨.other, "/v3", []⟩

/-- A configuration with the tunnel factory and one health entry. -/
def tunnelConfig : Config := ⟨.factory, "/v3", [⟨[.lit "/healthz"], true, [], "healthz"⟩]⟩

/-! ## Matching lemmas -/

theorem beginsWith_iff (p a : String) : beginsWith p a = true ↔ a.data <+: p.data := by
  simp [beginsWith]

theorem beginsWith_trans {p a b : String} (h : beginsWith p a = true)
    (hab : beginsWith a b = true) : beginsWith p b = true := by
  rw [beginsWith_iff] at *
  exact hab.trans h

theorem beginsWith_apart {p a b : String} (h : beginsWith p a = true)
    (hab : (beginsWith a b || beginsWith b a) = false) : beginsWith p b = false := by
  cases hb : beginsWith p b with
  | false => rfl
  | true =>
    rw [beginsWith_iff] at h hb
    rcases List.prefix_or_prefix_of_prefix h hb with h1 | h1
    · have : beginsWith b a = true := (beginsWith_iff _ _).2 h1
      simp [this] at hab
    · have : beginsWith a b = true := (beginsWith_iff _ _).2 h1
      simp [this] at hab

theorem beginsWith_ne {p a s : String} (h : beginsWith p a = true)
    (hs : beginsWith s a = false) : (p = s) = False := by
  apply eq_false
  rintro rfl
  rw [h] at hs
  exact Bool.noConfusion hs

theorem matchSegs_lit (anchored : Bool) (s : String) (cs : List Char) :
    matchSegs anchored [.lit s] cs
      = (s.data.isPrefixOf cs && (!anchored || decide (cs = s.data))) := by
  cases anchored
  · simp [matchSegs]
  · simp only [matchSegs, Bool.not_true, Bool.false_or]
    cases h : s.data.isPrefixOf cs
    · simp
    · simp only [Bool.true_and]
      rw [List.isPrefixOf_iff_prefix] at h
      obtain ⟨t, rfl⟩ := h
      cases t <;> simp

theorem Handle_matches {H : Type} (s : String) (h : H) (m p : String) :
    (Handle s h).matches m p = decide (p = s) := by
  simp only [Route.matches, Route.matchesPath, Route.admits, Handle, matchSegs_lit]
  by_cases hps : p = s
  · subst hps; simp
  · have : p.data ≠ s.data := fun hd => hps (String.ext hd)
    simp [hps, this]

theorem Handle_Methods_matches {H : Type} (s : String) (h : H) (ms : List String)
    (m p : String) :
    ((Handle s h).Methods ms).matches m p
      = (decide (p = s) && (ms.isEmpty || ms.contains m)) := by
  simp only [Route.matches, Route.matchesPath, Route.admits, Handle, Route.Methods, matchSegs_lit]
  by_cases hps : p = s
  · subst hps; simp
  · have : p.data ≠ s.data := fun hd => hps (String.ext hd)
    simp [hps, this]

theorem PathPrefix_matches {H : Type} (s : String) (h : H) (m p : String) :
    (PathPrefix s h).matches m p = beginsWith p s := by
  simp [Route.matches, Route.matchesPath, Route.admits, PathPrefix, matchSegs_lit, beginsWith]

theorem lit_first_matches {H : Type} (s : String) (rest : List Seg) (a : Bool)
    (ms : List String) (h : H) (m p : String) (hp : beginsWith p s = false) :
    (Route.mk (Seg.lit s :: rest) a ms h).matches m p = false := by
  simp only [beginsWith] at hp
  simp [Route.matches, Route.matchesPath, matchSegs, hp]

@[simp] theorem Handle_handler {H : Type} (s : String) (h : H) : (Handle s h).handler = h := rfl

@[simp] theorem PathPrefix_handler {H : Type} (s : String) (h : H) :
    (PathPrefix s h).handler = h := rfl

@[simp] theorem Methods_handler {H : Type} (r : Route H) (ms : List String) :
    (r.Methods ms).handler = r.handler := rfl

/-- The health entries as routes. -/
theorem registerHealth_routes (hs : List HealthCheck) (r : Router Handler) :
    (registerHealth hs r).routes
      = r.routes ++ hs.map (fun h => ⟨h.tpl, h.anchored, h.methods, .leaf (.health h.name)⟩) := by
  induction hs generalizing r with
  | nil => simp [registerHealth]
  | cons h t ih =>
    have := ih (r.add ⟨h.tpl, h.anchored, h.methods, .leaf (.health h.name)⟩)
    simp only [registerHealth, List.foldl_cons] at this ⊢
    rw [this]
    simp [Router.add]

theorem registerHealth_NotFoundHandler (hs : List HealthCheck) (r : Router Handler) :
    (registerHealth hs r).NotFoundHandler = r.NotFoundHandler := by
  induction hs generalizing r with
  | nil => simp [registerHealth]
  | cons h t ih =>
    have := ih (r.add ⟨h.tpl, h.anchored, h.methods, .leaf (.health h.name)⟩)
    simp only [registerHealth, List.foldl_cons] at this ⊢
    rw [this]
    simp [Router.add]

theorem root_routes (cfg : Config) :
    (root cfg).routes =
      [ Handle "/" (.chain chain (.leaf .managementAPI)),
        PathPrefix "/v3-public" (.leaf .publicAPI),
        ⟨[.lit "/v3/import/", .var "token", .lit ".yaml"], true, [], .leaf .ClusterImportHandler⟩,
        Handle "/v3/connect" (connectHandlers cfg.dialer).1,
        Handle "/v3/connect/register" (connectHandlers cfg.dialer).1,
        Handle "/v3/connect/config" (connectHandlers cfg.dialer).2,
        (Handle "/v3/settings/cacerts" (rawAuthedAPIs cfg)).Methods [MethodGet],
        (Handle "/v3/settings/first-login" (rawAuthedAPIs cfg)).Methods [MethodGet],
        (Handle "/v3/settings/ui-pl" (rawAuthedAPIs cfg)).Methods [MethodGet],
        PathPrefix "/v3" (authedHandler cfg),
        PathPrefix "/hooks" (.leaf .webhookHandler),
        PathPrefix "/k8s/clusters/" (authedHandler cfg),
        PathPrefix "/meta" (authedHandler cfg),
        PathPrefix "/v1-telemetry" (authedHandler cfg),
        PathPrefix "/v1-saml" (.leaf .samlRoot),
        PathPrefix "/assets" uiContent,
        PathPrefix "/translations" uiContent,
        Handle "/humans.txt" uiContent,
        Handle "/index.html" uiContent,
        Handle "/robots.txt" uiContent,
        Handle "/VERSION.txt" uiContent,
        PathPrefix "/api-ui" uiContent ]
      ++ cfg.health.map (fun h => ⟨h.tpl, h.anchored, h.methods, .leaf (.health h.name)⟩) := by
  simp [root, registerHealth_routes, Router.add, Router.setNotFoundHandler, NewRouter]

theorem root_NotFoundHandler (cfg : Config) :
    (root cfg).NotFoundHandler = some (.chain chain (.leaf .NotFoundHandler)) := by
  simp [root, registerHealth_NotFoundHandler, Router.add, Router.setNotFoundHandler, NewRouter]

/-- Case analysis on an entry of the root table by its position. -/
theorem root_entry_cases (cfg : Config) (P : Nat → Route Handler → Prop)
    (h0 : P 0 (Handle "/" (.chain chain (.leaf .managementAPI))))
    (h1 : P 1 (PathPrefix "/v3-public" (.leaf .publicAPI)))
    (h2 : P 2 ⟨[.lit "/v3/import/", .var "token", .lit ".yaml"], true, [],
      .leaf .ClusterImportHandler⟩)
    (h3 : P 3 (Handle "/v3/connect" (connectHandlers cfg.dialer).1))
    (h4 : P 4 (Handle "/v3/connect/register" (connectHandlers cfg.dialer).1))
    (h5 : P 5 (Handle "/v3/connect/config" (connectHandlers cfg.dialer).2))
    (h6 : P 6 ((Handle "/v3/settings/cacerts" (rawAuthedAPIs cfg)).Methods [MethodGet]))
    (h7 : P 7 ((Handle "/v3/settings/first-login" (rawAuthedAPIs cfg)).Methods [MethodGet]))
    (h8 : P 8 ((Handle "/v3/settings/ui-pl" (rawAuthedAPIs cfg)).Methods [MethodGet]))
    (h9 : P 9 (PathPrefix "/v3" (authedHandler cfg)))
    (h10 : P 10 (PathPrefix "/hooks" (.leaf .webhookHandler)))
    (h11 : P 11 (PathPrefix "/k8s/clusters/" (authedHandler cfg)))
    (h12 : P 12 (PathPrefix "/meta" (authedHandler cfg)))
    (h13 : P 13 (PathPrefix "/v1-telemetry" (authedHandler cfg)))
    (h14 : P 14 (PathPrefix "/v1-saml" (.leaf .samlRoot)))
    (h15 : P 15 (PathPrefix "/assets" uiContent))
    (h16 : P 16 (PathPrefix "/translations" uiContent))
    (h17 : P 17 (Handle "/humans.txt" uiContent))
    (h18 : P 18 (Handle "/index.html" uiContent))
    (h19 : P 19 (Handle "/robots.txt" uiContent))
    (h20 : P 20 (Handle "/VERSION.txt" uiContent))
    (h21 : P 21 (PathPrefix "/api-ui" uiContent))
    (hh : ∀ k (c : HealthCheck), 22 ≤ k →
      P k ⟨c.tpl, c.anchored, c.methods, .leaf (.health c.name)⟩)
    (k : Nat) (e : Route Handler) (h : (root cfg).routes[k]? = some e) : P k e := by
  rw [root_routes] at h
  by_cases hk : k < 22
  · interval_cases k <;> simp at h <;> subst h <;> assumption
  · rw [List.getElem?_append_right (by simpa using hk)] at h
    rw [List.getElem?_map] at h
    simp only [Option.map_eq_some'] at h
    obtain ⟨c, _, rfl⟩ := h
    exact hh k c (by omega)

/-- The selected entry sits at some position of the table and matches. -/
theorem route_some_position {H : Type} (r : Router H) (m p : String) (e : Route H)
    (h : r.route m p = some e) :
    e.matches m p = true ∧ ∃ k : Nat, r.routes[k]? = some e := by
  simp only [Router.route] at h
  refine ⟨by simpa using List.find?_some h, ?_⟩
  exact List.mem_iff_getElem?.1 (List.mem_of_find?_eq_some h)

theorem Handle_matchesPath {H : Type} (s : String) (h : H) (p : String) :
    (Handle s h).matchesPath p = decide (p = s) := by
  have := Handle_matches s h "" p
  simpa [Route.matches, Route.admits, Handle] using this

theorem Handle_Methods_matchesPath {H : Type} (s : String) (h : H) (ms : List String)
    (p : String) : ((Handle s h).Methods ms).matchesPath p = decide (p = s) :=
  Handle_matchesPath s h p

theorem PathPrefix_matchesPath {H : Type} (s : String) (h : H) (p : String) :
    (PathPrefix s h).matchesPath p = beginsWith p s := by
  have := PathPrefix_matches s h "" p
  simpa [Route.matches, Route.admits, PathPrefix] using this

theorem import_matchesPath (h : Handler) (p : String)
    (hp : (Route.mk [Seg.lit "/v3/import/", .var "token", .lit ".yaml"] true [] h).matchesPath p
      = true) : beginsWith p "/v3/import/" = true := by
  simp only [Route.matchesPath, matchSegs, Bool.and_eq_true] at hp
  exact hp.1

set_option maxHeartbeats 1000000

/-- An entry that `Start` itself registers and a later entry whose patterns
match a common path are bound to different handlers. -/
theorem root_overlap_distinct_own (cfg : Config) (p : String) (i : Nat) (A : Route Handler)
    (hA : (root cfg).routes[i]? = some A) (j : Nat) (B : Route Handler)
    (hB : (root cfg).routes[j]? = some B) :
    i < 22 → i < j → A.matchesPath p = true → B.matchesPath p = true →
      A.handler ≠ B.handler := by
  revert j B
  refine root_entry_cases cfg (fun i A => ∀ (j : Nat) (B : Route Handler),
      (root cfg).routes[j]? = some B → i < 22 → i < j → A.matchesPath p = true →
      B.matchesPath p = true → A.handler ≠ B.handler)
    ?_ ?_ ?_ ?_ ?_ ?_ ?_ ?_ ?_ ?_ ?_ ?_ ?_ ?_ ?_ ?_ ?_ ?_ ?_ ?_ ?_ ?_ ?_ i A hA
  case refine_23 =>
    intro k c hk j B _ hlt
    omega
  all_goals
    intro j B hB _
    refine root_entry_cases cfg (fun j B => (_ : Nat) < j →
        Route.matchesPath (_ : Route Handler) p = true → B.matchesPath p = true →
        Route.handler (_ : Route Handler) ≠ B.handler)
      ?_ ?_ ?_ ?_ ?_ ?_ ?_ ?_ ?_ ?_ ?_ ?_ ?_ ?_ ?_ ?_ ?_ ?_ ?_ ?_ ?_ ?_ ?_ j B hB
    all_goals
      first
        | intro _ _ _ hij hpA hpB
        | intro hij hpA hpB
      first
        | (exfalso; omega)
        | (cases cfg.dialer <;>
            simp [connectHandlers, rawAuthedAPIs, authedHandler, uiContent, chain]
           done)
        | (exfalso
           simp only [Handle_matchesPath, Handle_Methods_matchesPath, PathPrefix_matchesPath,
             decide_eq_true_eq] at hpA hpB
           first
             | (subst hpA; exact absurd hpB (by decide))
             | (subst hpB; exact absurd hpA (by decide))
             | (simp +decide [beginsWith_apart hpA] at hpB))

set_option maxHeartbeats 200000

/-- Two entries of the root table whose patterns match a common path are
bound to different handlers, when `registerHealth` binds each of its entries
to a handler of its own. -/
theorem root_overlap_distinct (cfg : Config) (hn : (cfg.health.map (fun c => c.name)).Nodup)
    (p : String) (i j : Nat) (A B : Route Handler)
    (hA : (root cfg).routes[i]? = some A) (hB : (root cfg).routes[j]? = some B)
    (hij : i < j) (hpA : A.matchesPath p = true) (hpB : B.matchesPath p = true) :
    A.handler ≠ B.handler := by
  by_cases hi : i < 22
  · exact root_overlap_distinct_own cfg p i A hA j B hB hi hij hpA hpB
  · rw [root_routes] at hA hB
    rw [List.getElem?_append_right (by simpa using hi), List.getElem?_map] at hA
    rw [List.getElem?_append_right (by simp; omega), List.getElem?_map] at hB
    simp only [List.length_cons, List.length_nil, Option.map_eq_some'] at hA hB
    obtain ⟨c1, h1, rfl⟩ := hA
    obtain ⟨c2, h2, rfl⟩ := hB
    intro hh
    have hname : c1.name = c2.name := by simpa using hh
    have hlen : j - 22 < cfg.health.length := by
      by_contra hge
      rw [List.getElem?_eq_none (by omega)] at h2
      exact Option.noConfusion h2
    have hne := (List.nodup_iff_getElem?_ne_getElem?.1 hn) (i - 22) (j - 22) (by omega)
      (by simpa using hlen)
    apply hne
    rw [List.getElem?_map, List.getElem?_map]
    simp only [Nat.zero_add, Nat.reduceAdd] at h1 h2
    rw [h1, h2]
    simp [hname]

/-! ## Properties of the tables and of `Start` -/

/-- C1: for every method and every path beginning with "/v3/settings/", the
root table answers with the ungated authenticated table exactly when the
method is GET and the path is one of "/v3/settings/cacerts",
"/v3/settings/first-login", "/v3/settings/ui-pl"; in every other case it
answers with the Auth Gate handler. -/
theorem settings_whitelist (cfg : Config) (m p : String)
    (hp : beginsWith p "/v3/settings/" = true) :
    ((root cfg).dispatch m p = some (rawAuthedAPIs cfg) ↔
        m = MethodGet ∧ (p = "/v3/settings/cacerts" ∨ p = "/v3/settings/first-login"
          ∨ p = "/v3/settings/ui-pl")) ∧
    (¬ (m = MethodGet ∧ (p = "/v3/settings/cacerts" ∨ p = "/v3/settings/first-login"
          ∨ p = "/v3/settings/ui-pl")) →
        (root cfg).dispatch m p = some (authedHandler cfg)) := by
  have h3 : beginsWith p "/v3" = true := beginsWith_trans hp (by decide)
  have hi : (Route.mk [Seg.lit "/v3/import/", .var "token", .lit ".yaml"] true []
      (Handler.leaf Leaf.ClusterImportHandler)).matches m p = false :=
    lit_first_matches _ _ _ _ _ _ _ (beginsWith_apart hp (by decide))
  have hne : rawAuthedAPIs cfg ≠ authedHandler cfg := by
    simp [rawAuthedAPIs, authedHandler]
  by_cases hm : m = MethodGet
  · subst hm
    by_cases h1 : p = "/v3/settings/cacerts"
    · subst h1
      simp +decide [Router.dispatch, Router.route, root_routes, List.find?_cons, Handle_matches,
        Handle_Methods_matches, PathPrefix_matches, hi]
    by_cases h2 : p = "/v3/settings/first-login"
    · subst h2
      simp +decide [Router.dispatch, Router.route, root_routes, List.find?_cons, Handle_matches,
        Handle_Methods_matches, PathPrefix_matches, hi]
    by_cases h4 : p = "/v3/settings/ui-pl"
    · subst h4
      simp +decide [Router.dispatch, Router.route, root_routes, List.find?_cons, Handle_matches,
        Handle_Methods_matches, PathPrefix_matches, hi]
    simp +decide [Router.dispatch, Router.route, root_routes, List.find?_cons, Handle_matches,
        Handle_Methods_matches, PathPrefix_matches, hi, h1, h2, h4, h3, beginsWith_ne hp,
        beginsWith_apart hp, hne.symm]
  · have hc : ([MethodGet].isEmpty || [MethodGet].contains m) = false := by
      simp [hm]
    simp only [Router.dispatch, Router.route, root_routes, Handle_matches,
        Handle_Methods_matches, PathPrefix_matches, hc, Bool.and_false]
    simp +decide [List.find?_cons, Handle_matches,
        Handle_Methods_matches, PathPrefix_matches, hi, h3, beginsWith_ne hp, hm,
        beginsWith_apart hp, hne.symm]

theorem settings_whitelist_witness :
    beginsWith "/v3/settings/other-key" "/v3/settings/" = true ∧
      (root plainConfig).dispatch "GET" "/v3/settings/other-key"
        = some (authedHandler plainConfig) :=
  ⟨by decide,
    (settings_whitelist plainConfig "GET" "/v3/settings/other-key" (by decide)).2 (by decide)⟩

/-- First match in a list: the entry at position `i` is found when it satisfies
the test and nothing before it does. -/
theorem find?_first {α : Type} (f : α → Bool) :
    ∀ (l : List α) (i : Nat) (a : α), l[i]? = some a → f a = true →
      (∀ k, k < i → ∀ e, l[k]? = some e → f e = false) →
      l.find? f = some a ∧ l.findIdx? f = some i := by
  intro l
  induction l with
  | nil => intro i a h; simp at h
  | cons x xs ih =>
    intro i a h ha hfirst
    cases i with
    | zero =>
      simp only [List.getElem?_cons_zero, Option.some.injEq] at h
      subst h
      simp [List.find?_cons, List.findIdx?_cons, ha]
    | succ n =>
      have hx : f x = false := hfirst 0 (Nat.succ_pos n) x (by simp)
      simp only [List.getElem?_cons_succ] at h
      have := ih n a h ha (fun k hk e he => hfirst (k + 1) (Nat.succ_lt_succ hk) e (by simpa using he))
      simp [List.find?_cons, List.findIdx?_cons, hx, this.1, this.2]

/-- C2, as stated, fails: for POST "/v3/settings/cacerts" the GET-only entry
"/v3/settings/cacerts" (position 6) and the "/v3" prefix entry (position 9)
both match the path by pattern and no earlier entry matches the request, yet
the request is served by the later entry, the Auth Gate. -/
theorem first_registered_wins_counterexample :
    (root plainConfig).routes[6]?
        = some ((Handle "/v3/settings/cacerts" (rawAuthedAPIs plainConfig)).Methods [MethodGet]) ∧
      (root plainConfig).routes[9]? = some (PathPrefix "/v3" (authedHandler plainConfig)) ∧
      ((Handle "/v3/settings/cacerts" (rawAuthedAPIs plainConfig)).Methods
          [MethodGet]).matchesPath "/v3/settings/cacerts" = true ∧
      (PathPrefix "/v3" (authedHandler plainConfig)).matchesPath "/v3/settings/cacerts" = true ∧
      ((root plainConfig).routes.take 6).all
          (fun e => !e.matches "POST" "/v3/settings/cacerts") = true ∧
      (root plainConfig).routeIdx "POST" "/v3/settings/cacerts" = some 9 ∧
      (root plainConfig).dispatch "POST" "/v3/settings/cacerts"
        = some (authedHandler plainConfig) ∧
      authedHandler plainConfig ≠ rawAuthedAPIs plainConfig := by
  decide

/-- C2 (amended): for entries A (position i) and B (position j > i) of the
root table whose patterns both match a path, and every method that A's method
filter admits, if no entry before A matches the request then A is the entry
selected, the request is served by A's handler and never by B's, which is a
different handler.  The entries `registerHealth` adds are taken as bound to
pairwise distinct handlers. -/
theorem first_registered_wins (cfg : Config)
    (hn : (cfg.health.map (fun c => c.name)).Nodup)
    (i j : Nat) (A B : Route Handler) (m p : String)
    (hA : (root cfg).routes[i]? = some A) (hB : (root cfg).routes[j]? = some B)
    (hij : i < j)
    (hpA : A.matchesPath p = true) (hpB : B.matchesPath p = true)
    (hm : A.admits m = true)
    (hfirst : ∀ k, k < i → ∀ e, (root cfg).routes[k]? = some e → e.matches m p = false) :
    (root cfg).route m p = some A ∧ (root cfg).routeIdx m p = some i ∧
      (root cfg).dispatch m p = some A.handler ∧
      (root cfg).dispatch m p ≠ some B.handler ∧
      (root cfg).routeIdx m p ≠ some j := by
  have hAm : A.matches m p = true := by simp [Route.matches, hpA, hm]
  have h := find?_first (fun e : Route Handler => e.matches m p) (root cfg).routes i A hA hAm hfirst
  have hd : (root cfg).dispatch m p = some A.handler := by
    simp [Router.dispatch, Router.route, h.1]
  have hne : A.handler ≠ B.handler := root_overlap_distinct cfg hn p i j A B hA hB hij hpA hpB
  refine ⟨h.1, h.2, hd, ?_, ?_⟩
  · rw [hd]
    intro hh
    exact hne (Option.some.inj hh)
  · simp only [Router.routeIdx, h.2, ne_eq, Option.some.injEq]
    omega

theorem first_registered_wins_witness :
    (root tunnelConfig).route "GET" "/v3-public/x"
        = some (PathPrefix "/v3-public" (.leaf .publicAPI)) ∧
      (root tunnelConfig).routeIdx "GET" "/v3-public/x" = some 1 ∧
      (root tunnelConfig).dispatch "GET" "/v3-public/x" = some (.leaf .publicAPI) ∧
      (root tunnelConfig).dispatch "GET" "/v3-public/x" ≠ some (authedHandler tunnelConfig) ∧
      (root tunnelConfig).routeIdx "GET" "/v3-public/x" ≠ some 9 :=
  first_registered_wins tunnelConfig (by decide) 1 9 (PathPrefix "/v3-public" (.leaf .publicAPI))
    (PathPrefix "/v3" (authedHandler tunnelConfig)) "GET" "/v3-public/x"
    (by decide) (by decide) (by decide) (by decide) (by decide) (by decide)
    (by
      intro k hk e he
      have hk0 : k = 0 := by omega
      subst hk0
      have he2 : e = Handle "/" (.chain chain (.leaf .managementAPI)) := by
        have h0 : (root tunnelConfig).routes[0]?
            = some (Handle "/" (.chain chain (.leaf .managementAPI))) := by decide
        rw [h0] at he
        exact (Option.some.inj he).symm
      subst he2
      decide)

/-- C3: when the dialer is not the tunnel factory, `connectHandlers` yields
`http.NotFoundHandler()` twice, so for every method the root table answers
"/v3/connect", "/v3/connect/register" and "/v3/connect/config" with that 404
handler; and the error `Start` returns does not depend on the dialer: with
the four constructors succeeding it returns nil and serves the root table. -/
theorem tunnel_unsupported (deps : Deps) (cfg : Config) (m : String)
    (hd : cfg.dialer = .other) :
    connectHandlers cfg.dialer = (.leaf .NotFoundHandler, .leaf .NotFoundHandler) ∧
      (root cfg).dispatch m "/v3/connect" = some (.leaf .NotFoundHandler) ∧
      (root cfg).dispatch m "/v3/connect/register" = some (.leaf .NotFoundHandler) ∧
      (root cfg).dispatch m "/v3/connect/config" = some (.leaf .NotFoundHandler) ∧
      (Start deps cfg).err = (Start deps { cfg with dialer := .factory }).err ∧
      (deps = ⟨none, none, none, none⟩ →
        (Start deps cfg).err = none ∧ (Start deps cfg).served = some (root cfg)) := by
  refine ⟨by simp [hd, connectHandlers], ?_, ?_, ?_, ?_, ?_⟩
  · simp +decide [Router.dispatch, Router.route, root_routes, List.find?_cons, Handle_matches,
      Handle_Methods_matches, PathPrefix_matches, lit_first_matches, hd, connectHandlers]
  · simp +decide [Router.dispatch, Router.route, root_routes, List.find?_cons, Handle_matches,
      Handle_Methods_matches, PathPrefix_matches, lit_first_matches, hd, connectHandlers]
  · simp +decide [Router.dispatch, Router.route, root_routes, List.find?_cons, Handle_matches,
      Handle_Methods_matches, PathPrefix_matches, lit_first_matches, hd, connectHandlers]
  · obtain ⟨a, b, c, d⟩ := deps
    cases a <;> cases b <;> cases c <;> cases d <;> rfl
  · rintro rfl
    exact ⟨rfl, rfl⟩

theorem tunnel_unsupported_witness :
    connectHandlers plainConfig.dialer = (.leaf .NotFoundHandler, .leaf .NotFoundHandler) ∧
      (root plainConfig).dispatch "POST" "/v3/connect" = some (.leaf .NotFoundHandler) ∧
      (root plainConfig).dispatch "POST" "/v3/connect/register" = some (.leaf .NotFoundHandler) ∧
      (root plainConfig).dispatch "POST" "/v3/connect/config" = some (.leaf .NotFoundHandler) ∧
      (Start ⟨none, none, none, none⟩ plainConfig).err
        = (Start ⟨none, none, none, none⟩ { plainConfig with dialer := .factory }).err ∧
      ((⟨none, none, none, none⟩ : Deps) = ⟨none, none, none, none⟩ →
        (Start ⟨none, none, none, none⟩ plainConfig).err = none ∧
          (Start ⟨none, none, none, none⟩ plainConfig).served = some (root plainConfig)) :=
  tunnel_unsupported ⟨none, none, none, none⟩ plainConfig "POST" rfl

/-- C4: if one of the four fallible constructors (token API handler, public API
handler, management API, authentication filter) returns an error, `Start`
returns exactly that error, has called nothing after the failing constructor,
and never calls `dynamiclistener.Start`; if all four succeed, `Start` calls
`dynamiclistener.Start` exactly once, as its last call, with the root table,
and returns nil. -/
theorem Start_aborts_before_listener (deps : Deps) (cfg : Config) :
    (∀ e, deps.tokensNewAPIHandler = some e →
        (Start deps cfg).err = some e ∧
        (Start deps cfg).calls = [.tokensNewAPIHandler]) ∧
    (∀ e, deps.tokensNewAPIHandler = none → deps.publicapiNewHandler = some e →
        (Start deps cfg).err = some e ∧
        (Start deps cfg).calls = [.tokensNewAPIHandler, .publicapiNewHandler]) ∧
    (∀ e, deps.tokensNewAPIHandler = none → deps.publicapiNewHandler = none →
        deps.managementapiNew = some e →
        (Start deps cfg).err = some e ∧
        (Start deps cfg).calls
          = [.tokensNewAPIHandler, .publicapiNewHandler, .k8sProxyNew, .managementapiNew]) ∧
    (∀ e, deps.tokensNewAPIHandler = none → deps.publicapiNewHandler = none →
        deps.managementapiNew = none → deps.NewAuthenticationFilter = some e →
        (Start deps cfg).err = some e ∧
        (Start deps cfg).calls
          = [.tokensNewAPIHandler, .publicapiNewHandler, .k8sProxyNew, .managementapiNew,
              .newAuthed, .NewAuthenticationFilter]) ∧
    ((Start deps cfg).err ≠ none →
        Call.dynamiclistenerStart ∉ (Start deps cfg).calls ∧ (Start deps cfg).served = none) ∧
    (deps.tokensNewAPIHandler = none → deps.publicapiNewHandler = none →
        deps.managementapiNew = none → deps.NewAuthenticationFilter = none →
        (Start deps cfg).err = none ∧
        (Start deps cfg).calls.count .dynamiclistenerStart = 1 ∧
        (Start deps cfg).calls.getLast? = some .dynamiclistenerStart ∧
        (Start deps cfg).served = some (root cfg)) := by
  obtain ⟨a, b, c, d⟩ := deps
  refine ⟨?_, ?_, ?_, ?_, ?_, ?_⟩
  · rintro e ⟨⟩
    exact ⟨rfl, rfl⟩
  · rintro e ⟨⟩ ⟨⟩
    exact ⟨rfl, rfl⟩
  · rintro e ⟨⟩ ⟨⟩ ⟨⟩
    exact ⟨rfl, rfl⟩
  · rintro e ⟨⟩ ⟨⟩ ⟨⟩ ⟨⟩
    exact ⟨rfl, rfl⟩
  · intro h
    cases a with
    | some e =>
      have hc : (Start ⟨some e, b, c, d⟩ cfg).calls = [.tokensNewAPIHandler] := rfl
      exact ⟨by rw [hc]; decide, rfl⟩
    | none =>
    cases b with
    | some e =>
      have hc : (Start ⟨none, some e, c, d⟩ cfg).calls
          = [.tokensNewAPIHandler, .publicapiNewHandler] := rfl
      exact ⟨by rw [hc]; decide, rfl⟩
    | none =>
    cases c with
    | some e =>
      have hc : (Start ⟨none, none, some e, d⟩ cfg).calls
          = [.tokensNewAPIHandler, .publicapiNewHandler, .k8sProxyNew, .managementapiNew] := rfl
      exact ⟨by rw [hc]; decide, rfl⟩
    | none =>
    cases d with
    | some e =>
      have hc : (Start ⟨none, none, none, some e⟩ cfg).calls
          = [.tokensNewAPIHandler, .publicapiNewHandler, .k8sProxyNew, .managementapiNew,
              .newAuthed, .NewAuthenticationFilter] := rfl
      exact ⟨by rw [hc]; decide, rfl⟩
    | none => exact absurd rfl h
  · rintro ⟨⟩ ⟨⟩ ⟨⟩ ⟨⟩
    have hc : (Start ⟨none, none, none, none⟩ cfg).calls
        = [.tokensNewAPIHandler, .publicapiNewHandler, .k8sProxyNew, .managementapiNew,
            .newAuthed, .NewAuthenticationFilter, .hooksNew, .connectHandlers,
            .samlAuthHandler, .uiContent, .registerHealth, .dynamiclistenerStart] := rfl
    exact ⟨rfl, by rw [hc]; decide, by rw [hc]; decide, rfl⟩

theorem Start_aborts_before_listener_witness :
    (Start ⟨none, some "public api: init failed", none, some "filter"⟩ tunnelConfig).err
        = some "public api: init failed" ∧
      (Start ⟨none, some "public api: init failed", none, some "filter"⟩ tunnelConfig).calls
        = [.tokensNewAPIHandler, .publicapiNewHandler] :=
  (Start_aborts_before_listener ⟨none, some "public api: init failed", none, some "filter"⟩
    tunnelConfig).2.1 "public api: init failed" rfl rfl

/-- C5: for every method and path that no entry of the root table matches, the
table answers with `http.NotFoundHandler()` wrapped in the baseline chain
(Gzip, NoCache, ContentType, UI), the chain that also wraps the handler of the
"/" entry, although the fallback is assigned in the middle of the
registration sequence. -/
theorem unmatched_gets_chained_NotFound (cfg : Config) (m p : String)
    (h : ∀ e ∈ (root cfg).routes, e.matches m p = false) :
    (root cfg).dispatch m p
        = some (.chain [.Gzip, .NoCache, .ContentType, .UI] (.leaf .NotFoundHandler)) ∧
      (root cfg).dispatch m "/"
        = some (.chain [.Gzip, .NoCache, .ContentType, .UI] (.leaf .managementAPI)) := by
  constructor
  · have hnone : (root cfg).route m p = none := by
      simp only [Router.route, List.find?_eq_none]
      intro e he
      simp [h e he]
    simp [Router.dispatch, hnone, root_NotFoundHandler, chain]
  · simp +decide [Router.dispatch, Router.route, root_routes, List.find?_cons, Handle_matches,
      chain]

theorem unmatched_gets_chained_NotFound_witness :
    (∀ e ∈ (root tunnelConfig).routes, e.matches "DELETE" "/nothing/here" = false) ∧
      (root tunnelConfig).dispatch "DELETE" "/nothing/here"
        = some (.chain [.Gzip, .NoCache, .ContentType, .UI] (.leaf .NotFoundHandler)) ∧
      (root tunnelConfig).dispatch "DELETE" "/"
        = some (.chain [.Gzip, .NoCache, .ContentType, .UI] (.leaf .managementAPI)) :=
  ⟨by decide, unmatched_gets_chained_NotFound tunnelConfig "DELETE" "/nothing/here" (by decide)⟩

/-- C6, as stated, fails: without tunnel support "/v3/connect" is answered by
the bare `http.NotFoundHandler()`, and "/v3-public/x" by the public API
handler as constructed; neither is the result of applying a chain. -/
theorem chain_coverage_counterexample :
    (root plainConfig).dispatch "GET" "/v3/connect" = some (.leaf .NotFoundHandler) ∧
      Handler.wrapped (.leaf .NotFoundHandler) = false ∧
      (root plainConfig).dispatch "GET" "/v3-public/x" = some (.leaf .publicAPI) ∧
      Handler.wrapped (.leaf .publicAPI) = false := by
  decide

/-- C6 (amended): the root table answers with a chain-wrapped handler in three
cases: path "/" (baseline chain around the management API), a static-asset
path (static chain around the UI content), and a request no entry matches
(baseline chain around NotFound).  Every other matched request is answered by
the handler as constructed, with no chain applied by `Start`; nothing is
stated here about the tunnel paths when the dialer is not the tunnel factory. -/
theorem chain_coverage (cfg : Config) (m p : String) :
    (p = "/" → (root cfg).dispatch m p = some (.chain chain (.leaf .managementAPI))) ∧
    ((beginsWith p "/assets" = true ∨ beginsWith p "/translations" = true ∨
        p = "/humans.txt" ∨ p = "/index.html" ∨ p = "/robots.txt" ∨ p = "/VERSION.txt" ∨
        beginsWith p "/api-ui" = true) →
      (root cfg).dispatch m p
        = some (.chain [.Gzip, .CacheMiddleware ["json", "js", "css"]] (.leaf .Content))) ∧
    ((∀ e ∈ (root cfg).routes, e.matches m p = false) →
      (root cfg).dispatch m p = some (.chain chain (.leaf .NotFoundHandler))) ∧
    (¬ p = "/" →
      ¬ (beginsWith p "/assets" = true ∨ beginsWith p "/translations" = true ∨
        p = "/humans.txt" ∨ p = "/index.html" ∨ p = "/robots.txt" ∨ p = "/VERSION.txt" ∨
        beginsWith p "/api-ui" = true) →
      ¬ (cfg.dialer = .other ∧
        (p = "/v3/connect" ∨ p = "/v3/connect/register" ∨ p = "/v3/connect/config")) →
      (∃ e ∈ (root cfg).routes, e.matches m p = true) →
      ∃ h, (root cfg).dispatch m p = some h ∧ h.wrapped = false) := by
  refine ⟨?_, ?_, ?_, ?_⟩
  · rintro rfl
    simp +decide [Router.dispatch, Router.route, root_routes, List.find?_cons, Handle_matches]
  · rintro (hp | hp | rfl | rfl | rfl | rfl | hp)
    · simp +decide [Router.dispatch, Router.route, root_routes, List.find?_cons, Handle_matches,
        Handle_Methods_matches, PathPrefix_matches, lit_first_matches, hp, beginsWith_ne hp,
        beginsWith_apart hp, uiContent]
    · simp +decide [Router.dispatch, Router.route, root_routes, List.find?_cons, Handle_matches,
        Handle_Methods_matches, PathPrefix_matches, lit_first_matches, hp, beginsWith_ne hp,
        beginsWith_apart hp, uiContent]
    · simp +decide [Router.dispatch, Router.route, root_routes, List.find?_cons, Handle_matches,
        Handle_Methods_matches, PathPrefix_matches, lit_first_matches, uiContent]
    · simp +decide [Router.dispatch, Router.route, root_routes, List.find?_cons, Handle_matches,
        Handle_Methods_matches, PathPrefix_matches, lit_first_matches, uiContent]
    · simp +decide [Router.dispatch, Router.route, root_routes, List.find?_cons, Handle_matches,
        Handle_Methods_matches, PathPrefix_matches, lit_first_matches, uiContent]
    · simp +decide [Router.dispatch, Router.route, root_routes, List.find?_cons, Handle_matches,
        Handle_Methods_matches, PathPrefix_matches, lit_first_matches, uiContent]
    · simp +decide [Router.dispatch, Router.route, root_routes, List.find?_cons, Handle_matches,
        Handle_Methods_matches, PathPrefix_matches, lit_first_matches, hp, beginsWith_ne hp,
        beginsWith_apart hp, uiContent]
  · intro h
    have hnone : (root cfg).route m p = none := by
      simp only [Router.route, List.find?_eq_none]
      intro e he
      simp [h e he]
    simp [Router.dispatch, hnone, root_NotFoundHandler]
  · intro h1 h2 _ h3
    obtain ⟨e0, he0, hm0⟩ := h3
    cases hr : (root cfg).route m p with
    | none =>
      simp only [Router.route, List.find?_eq_none] at hr
      exact absurd hm0 (hr e0 he0)
    | some e =>
      obtain ⟨hm, k, hk⟩ := route_some_position _ _ _ _ hr
      refine ⟨e.handler, by simp [Router.dispatch, hr], ?_⟩
      revert hm
      refine root_entry_cases cfg
        (fun _ e => e.matches m p = true → e.handler.wrapped = false)
        ?_ ?_ ?_ ?_ ?_ ?_ ?_ ?_ ?_ ?_ ?_ ?_ ?_ ?_ ?_ ?_ ?_ ?_ ?_ ?_ ?_ ?_ ?_ k e hk
      all_goals first
        | (intro _; rfl)
        | (intro _ _ _ _; rfl)
        | (intro _; cases cfg.dialer <;> rfl)
        | (intro hm; exfalso
           simp only [Handle_matches, PathPrefix_matches, decide_eq_true_eq] at hm
           first
             | exact h1 hm
             | exact h2 (by simp [hm]))

/-- C7, as stated, fails in its ordering clause: the "/hooks" entry sits at
position 10, before the Auth Gate entries "/k8s/clusters/", "/meta" and
"/v1-telemetry" at positions 11, 12 and 13, not after them. -/
theorem public_namespaces_bypass_gate_counterexample :
    (root plainConfig).routes[10]? = some (PathPrefix "/hooks" (.leaf .webhookHandler)) ∧
      (root plainConfig).routes[11]?
        = some (PathPrefix "/k8s/clusters/" (authedHandler plainConfig)) ∧
      (root plainConfig).routes[12]? = some (PathPrefix "/meta" (authedHandler plainConfig)) ∧
      (root plainConfig).routes[13]?
        = some (PathPrefix "/v1-telemetry" (authedHandler plainConfig)) ∧
      ¬ (11 < 10) ∧ ¬ (12 < 10) ∧ ¬ (13 < 10) := by
  decide

/-- C7 (amended): for every method, a path beginning with "/v3-public", "/hooks"
or "/v1-saml" is answered by the public API handler, the webhook handler or
the SAML handler respectively and never by the Auth Gate handler, although the
"/v3" Auth Gate entry also matches every "/v3-public" path, the "/hooks" entry
(position 10) is registered after the "/v3" Auth Gate entry (position 9) and
before the other three Auth Gate entries (positions 11 to 13), and the
"/v1-saml" entry (position 14) is registered after every Auth Gate entry. -/
theorem public_namespaces_bypass_gate (cfg : Config) (m p : String) :
    (beginsWith p "/v3-public" = true →
      (root cfg).dispatch m p = some (.leaf .publicAPI) ∧
      (PathPrefix "/v3" (authedHandler cfg)).matches m p = true) ∧
    (beginsWith p "/hooks" = true → (root cfg).dispatch m p = some (.leaf .webhookHandler)) ∧
    (beginsWith p "/v1-saml" = true → (root cfg).dispatch m p = some (.leaf .samlRoot)) ∧
    ((beginsWith p "/v3-public" = true ∨ beginsWith p "/hooks" = true ∨
        beginsWith p "/v1-saml" = true) →
      (root cfg).dispatch m p ≠ some (authedHandler cfg)) ∧
    (root cfg).routes[9]? = some (PathPrefix "/v3" (authedHandler cfg)) ∧
    (root cfg).routes[10]? = some (PathPrefix "/hooks" (.leaf .webhookHandler)) ∧
    (root cfg).routes[11]? = some (PathPrefix "/k8s/clusters/" (authedHandler cfg)) ∧
    (root cfg).routes[12]? = some (PathPrefix "/meta" (authedHandler cfg)) ∧
    (root cfg).routes[13]? = some (PathPrefix "/v1-telemetry" (authedHandler cfg)) ∧
    (root cfg).routes[14]? = some (PathPrefix "/v1-saml" (.leaf .samlRoot)) ∧
    (∀ (k : Nat) (e : Route Handler), (root cfg).routes[k]? = some e →
      e.handler = authedHandler cfg → k = 9 ∨ (10 < k ∧ k < 14)) := by
  have hpub : beginsWith p "/v3-public" = true →
      (root cfg).dispatch m p = some (.leaf .publicAPI) := by
    intro hp
    simp +decide [Router.dispatch, Router.route, root_routes, List.find?_cons, Handle_matches,
      PathPrefix_matches, hp, beginsWith_ne hp]
  have hhooks : beginsWith p "/hooks" = true →
      (root cfg).dispatch m p = some (.leaf .webhookHandler) := by
    intro hp
    simp +decide [Router.dispatch, Router.route, root_routes, List.find?_cons, Handle_matches,
      Handle_Methods_matches, PathPrefix_matches, lit_first_matches, hp, beginsWith_ne hp,
      beginsWith_apart hp]
  have hsaml : beginsWith p "/v1-saml" = true →
      (root cfg).dispatch m p = some (.leaf .samlRoot) := by
    intro hp
    simp +decide [Router.dispatch, Router.route, root_routes, List.find?_cons, Handle_matches,
      Handle_Methods_matches, PathPrefix_matches, lit_first_matches, hp, beginsWith_ne hp,
      beginsWith_apart hp]
  refine ⟨fun hp => ⟨hpub hp, ?_⟩, hhooks, hsaml, ?_, ?_, ?_, ?_, ?_, ?_, ?_, ?_⟩
  · rw [PathPrefix_matches]
    exact beginsWith_trans hp (by decide)
  · rintro (hp | hp | hp)
    · rw [hpub hp]; simp [authedHandler]
    · rw [hhooks hp]; simp [authedHandler]
    · rw [hsaml hp]; simp [authedHandler]
  · simp [root_routes]
  · simp [root_routes]
  · simp [root_routes]
  · simp [root_routes]
  · simp [root_routes]
  · simp [root_routes]
  · intro k e hk
    refine root_entry_cases cfg
      (fun k e => e.handler = authedHandler cfg → k = 9 ∨ (10 < k ∧ k < 14))
      ?_ ?_ ?_ ?_ ?_ ?_ ?_ ?_ ?_ ?_ ?_ ?_ ?_ ?_ ?_ ?_ ?_ ?_ ?_ ?_ ?_ ?_ ?_ k e hk
    all_goals first
      | (intro _; omega)
      | (cases cfg.dialer <;> intro h <;>
          simp [connectHandlers, authedHandler, rawAuthedAPIs, uiContent] at h)
      | (intro _ _ _ h; simp [authedHandler] at h)

theorem public_namespaces_bypass_gate_witness :
    beginsWith "/v3-public/authProviders" "/v3-public" = true ∧
      (root tunnelConfig).dispatch "POST" "/v3-public/authProviders" = some (.leaf .publicAPI) ∧
      (PathPrefix "/v3" (authedHandler tunnelConfig)).matches "POST" "/v3-public/authProviders"
        = true :=
  ⟨by decide,
    (public_namespaces_bypass_gate tunnelConfig "POST" "/v3-public/authProviders").1 (by decide)⟩

theorem newAuthed_routes (tok mgmt k8s : Leaf) (versionPath : String) :
    (newAuthed tok mgmt k8s versionPath).routes =
      [ Handle "/meta/gkeMachineTypes" .GKEMachineTypesHandler,
        Handle "/meta/gkeVersions" .GKEVersionsHandler,
        Handle "/meta/gkeZones" .GKEZonesHandler,
        Handle "/meta/aksVersions" .AKSVersionsHandler,
        Handle "/meta/aksVirtualNetworks" .AKSVirtualNetworksHandler,
        PathPrefix "/meta/proxy" .newProxy,
        PathPrefix "/meta" mgmt,
        PathPrefix "/v3/identit" tok,
        PathPrefix "/v3/token" tok,
        PathPrefix "/k8s/clusters/" k8s,
        PathPrefix "/v1-telemetry" .telemetryProxy,
        PathPrefix versionPath mgmt ] := by
  simp [newAuthed, Router.add, NewRouter]

/-- C8: for every method, a path beginning with "/k8s/clusters/",
"/v1-telemetry" or "/meta/proxy" is answered by the root table with the Auth
Gate handler, and the inner table built by `newAuthed`, which the gate wraps,
answers the same request with the cluster proxy, the telemetry proxy or the
allow-listed proxy respectively; a "/meta/proxy" path is never answered by the
management API, although the inner "/meta" entry matches it too. -/
theorem gated_proxies (cfg : Config) (m p : String) :
    authedHandler cfg
        = .authFilter (.router (newAuthed .tokenAPI .managementAPI .k8sProxy cfg.versionPath)) ∧
    (beginsWith p "/k8s/clusters/" = true →
      (root cfg).dispatch m p = some (authedHandler cfg) ∧
      (newAuthed .tokenAPI .managementAPI .k8sProxy cfg.versionPath).dispatch m p
        = some .k8sProxy) ∧
    (beginsWith p "/v1-telemetry" = true →
      (root cfg).dispatch m p = some (authedHandler cfg) ∧
      (newAuthed .tokenAPI .managementAPI .k8sProxy cfg.versionPath).dispatch m p
        = some .telemetryProxy) ∧
    (beginsWith p "/meta/proxy" = true →
      (root cfg).dispatch m p = some (authedHandler cfg) ∧
      (newAuthed .tokenAPI .managementAPI .k8sProxy cfg.versionPath).dispatch m p
        = some .newProxy ∧
      (newAuthed .tokenAPI .managementAPI .k8sProxy cfg.versionPath).dispatch m p
        ≠ some .managementAPI ∧
      (PathPrefix "/meta" Leaf.managementAPI).matches m p = true) := by
  refine ⟨rfl, ?_, ?_, ?_⟩
  · intro hp
    constructor
    · simp +decide [Router.dispatch, Router.route, root_routes, List.find?_cons, Handle_matches,
        Handle_Methods_matches, PathPrefix_matches, lit_first_matches, hp, beginsWith_ne hp,
        beginsWith_apart hp]
    · simp +decide [Router.dispatch, Router.route, newAuthed_routes, List.find?_cons,
        Handle_matches, PathPrefix_matches, hp, beginsWith_ne hp, beginsWith_apart hp]
  · intro hp
    constructor
    · simp +decide [Router.dispatch, Router.route, root_routes, List.find?_cons, Handle_matches,
        Handle_Methods_matches, PathPrefix_matches, lit_first_matches, hp, beginsWith_ne hp,
        beginsWith_apart hp]
    · simp +decide [Router.dispatch, Router.route, newAuthed_routes, List.find?_cons,
        Handle_matches, PathPrefix_matches, hp, beginsWith_ne hp, beginsWith_apart hp]
  · intro hp
    have hmeta : beginsWith p "/meta" = true := beginsWith_trans hp (by decide)
    have hin : (newAuthed .tokenAPI .managementAPI .k8sProxy cfg.versionPath).dispatch m p
        = some .newProxy := by
      simp +decide [Router.dispatch, Router.route, newAuthed_routes, List.find?_cons,
        Handle_matches, PathPrefix_matches, hp, beginsWith_ne hp, beginsWith_apart hp]
    refine ⟨?_, hin, ?_, ?_⟩
    · simp +decide [Router.dispatch, Router.route, root_routes, List.find?_cons, Handle_matches,
        Handle_Methods_matches, PathPrefix_matches, lit_first_matches, hmeta, beginsWith_ne hmeta,
        beginsWith_apart hmeta]
    · rw [hin]; simp
    · rw [PathPrefix_matches]; exact hmeta

theorem gated_proxies_witness :
    beginsWith "/meta/proxy/api.example.com/v1" "/meta/proxy" = true ∧
      (root tunnelConfig).dispatch "GET" "/meta/proxy/api.example.com/v1"
        = some (authedHandler tunnelConfig) ∧
      (newAuthed .tokenAPI .managementAPI .k8sProxy tunnelConfig.versionPath).dispatch "GET"
        "/meta/proxy/api.example.com/v1" = some .newProxy :=
  ⟨by decide,
    ((gated_proxies tunnelConfig "GET" "/meta/proxy/api.example.com/v1").2.2.2 (by decide)).1,
    ((gated_proxies tunnelConfig "GET" "/meta/proxy/api.example.com/v1").2.2.2 (by decide)).2.1⟩

/-- C9, as stated, fails: the webhook entry, a public entry, sits at position
10, after the whitelisted entry at position 6 and after the Auth Gate entry at
position 9; the SAML entry sits at position 14, after the Auth Gate entry at
position 13. -/
theorem registration_precedence_counterexample :
    (root plainConfig).routes[10]? = some (PathPrefix "/hooks" (.leaf .webhookHandler)) ∧
      (root plainConfig).routes[14]? = some (PathPrefix "/v1-saml" (.leaf .samlRoot)) ∧
      (root plainConfig).routes[6]?
        = some ((Handle "/v3/settings/cacerts" (rawAuthedAPIs plainConfig)).Methods [MethodGet]) ∧
      (root plainConfig).routes[9]? = some (PathPrefix "/v3" (authedHandler plainConfig)) ∧
      (root plainConfig).routes[13]?
        = some (PathPrefix "/v1-telemetry" (authedHandler plainConfig)) ∧
      ¬ (10 < 6) ∧ ¬ (10 < 9) ∧ ¬ (14 < 13) := by
  decide

/-- Where the entries of the root table sit, by the handler they are bound to. -/
theorem root_positions (cfg : Config) (k : Nat) (e : Route Handler)
    (hk : (root cfg).routes[k]? = some e) :
    (e.handler ∈ [Handler.leaf .publicAPI, .leaf .ClusterImportHandler,
        (connectHandlers cfg.dialer).1, (connectHandlers cfg.dialer).2] → 1 ≤ k ∧ k ≤ 5) ∧
    (e.handler = rawAuthedAPIs cfg → 6 ≤ k ∧ k ≤ 8 ∧ e.methods = [MethodGet]) ∧
    (e.handler = authedHandler cfg → k = 9 ∨ (11 ≤ k ∧ k ≤ 13)) ∧
    (e.handler = .leaf .webhookHandler → k = 10) ∧
    (e.handler ∈ [Handler.leaf .samlRoot, uiContent] → 14 ≤ k ∧ k ≤ 21) := by
  refine root_entry_cases cfg (fun k e =>
    (e.handler ∈ [Handler.leaf .publicAPI, .leaf .ClusterImportHandler,
        (connectHandlers cfg.dialer).1, (connectHandlers cfg.dialer).2] → 1 ≤ k ∧ k ≤ 5) ∧
    (e.handler = rawAuthedAPIs cfg → 6 ≤ k ∧ k ≤ 8 ∧ e.methods = [MethodGet]) ∧
    (e.handler = authedHandler cfg → k = 9 ∨ (11 ≤ k ∧ k ≤ 13)) ∧
    (e.handler = .leaf .webhookHandler → k = 10) ∧
    (e.handler ∈ [Handler.leaf .samlRoot, uiContent] → 14 ≤ k ∧ k ≤ 21))
    ?_ ?_ ?_ ?_ ?_ ?_ ?_ ?_ ?_ ?_ ?_ ?_ ?_ ?_ ?_ ?_ ?_ ?_ ?_ ?_ ?_ ?_ ?_ k e hk
  all_goals
    cases cfg.dialer <;>
      simp [connectHandlers, rawAuthedAPIs, authedHandler, uiContent, Handle, PathPrefix,
        Route.Methods]

/-- C9 (amended): in the registration sequence of the root table, the public
API, cluster-import and tunnel connect/register/config entries are registered
before every whitelisted GET-only entry, and every whitelisted entry before
every Auth Gate entry; the webhook entry is registered after every whitelisted
entry and after the "/v3" Auth Gate entry, and the SAML and static-asset
entries after every Auth Gate entry. -/
theorem registration_precedence (cfg : Config) (i j : Nat) (A B : Route Handler)
    (hA : (root cfg).routes[i]? = some A) (hB : (root cfg).routes[j]? = some B) :
    (A.handler ∈ [Handler.leaf .publicAPI, .leaf .ClusterImportHandler,
        (connectHandlers cfg.dialer).1, (connectHandlers cfg.dialer).2] →
      B.handler = rawAuthedAPIs cfg → i < j) ∧
    (A.handler = rawAuthedAPIs cfg → B.handler = authedHandler cfg → i < j) ∧
    (A.handler = rawAuthedAPIs cfg → B.handler = .leaf .webhookHandler → i < j) ∧
    (A.handler = authedHandler cfg → A.tpl = [.lit "/v3"] →
      B.handler = .leaf .webhookHandler → i < j) ∧
    (A.handler = authedHandler cfg → B.handler ∈ [Handler.leaf .samlRoot, uiContent] →
      i < j) := by
  have pA := root_positions cfg i A hA
  have pB := root_positions cfg j B hB
  refine ⟨?_, ?_, ?_, ?_, ?_⟩
  · intro h1 h2
    have := pA.1 h1
    have := pB.2.1 h2
    omega
  · intro h1 h2
    have := pA.2.1 h1
    have := pB.2.2.1 h2
    omega
  · intro h1 h2
    have := pA.2.1 h1
    have := pB.2.2.2.1 h2
    omega
  · intro h1 ht h2
    have h4 := pA.2.2.1 h1
    have := pB.2.2.2.1 h2
    rcases h4 with h4 | ⟨h4, h5⟩
    · omega
    · exfalso
      rw [root_routes] at hA
      interval_cases i <;> simp at hA <;> subst hA <;> simp +decide [PathPrefix] at ht
  · intro h1 h2
    have := pA.2.2.1 h1
    have := pB.2.2.2.2 h2
    omega

theorem registration_precedence_witness :
    (Handler.leaf .publicAPI ∈ [Handler.leaf .publicAPI, .leaf .ClusterImportHandler,
        (connectHandlers plainConfig.dialer).1, (connectHandlers plainConfig.dialer).2] →
      rawAuthedAPIs plainConfig = rawAuthedAPIs plainConfig → 1 < 7) ∧
      (root plainConfig).routes[1]? = some (PathPrefix "/v3-public" (.leaf .publicAPI)) ∧
      (root plainConfig).routes[7]?
        = some ((Handle "/v3/settings/first-login" (rawAuthedAPIs plainConfig)).Methods
            [MethodGet]) :=
  ⟨(registration_precedence plainConfig 1 7 (PathPrefix "/v3-public" (.leaf .publicAPI))
      ((Handle "/v3/settings/first-login" (rawAuthedAPIs plainConfig)).Methods [MethodGet])
      (by decide) (by decide)).1, by decide, by decide⟩

/-- C10: with "/v3" as the management schema version path, every request the
root table answers with the authenticated table, through the Auth Gate or
through a whitelisted GET entry, is matched by some entry of the inner table
built by `newAuthed`: the inner table's no-match branch, which has no
NotFound handler assigned, is not reached from the root table. -/
theorem inner_never_misses (cfg : Config) (m p : String) (hv : cfg.versionPath = "/v3")
    (h : (root cfg).dispatch m p = some (authedHandler cfg) ∨
      (root cfg).dispatch m p = some (rawAuthedAPIs cfg)) :
    (newAuthed .tokenAPI .managementAPI .k8sProxy cfg.versionPath).NotFoundHandler = none ∧
    (∃ e, (newAuthed .tokenAPI .managementAPI .k8sProxy cfg.versionPath).route m p = some e) ∧
    (∃ h, (newAuthed .tokenAPI .managementAPI .k8sProxy cfg.versionPath).dispatch m p
      = some h) := by
  have key : ∃ e, (newAuthed .tokenAPI .managementAPI .k8sProxy cfg.versionPath).route m p
      = some e := by
    cases hr : (root cfg).route m p with
    | none =>
      exfalso
      simp [Router.dispatch, hr, root_NotFoundHandler, authedHandler, rawAuthedAPIs] at h
    | some e =>
      have hh : e.handler = authedHandler cfg ∨ e.handler = rawAuthedAPIs cfg := by
        simpa [Router.dispatch, hr] using h
      obtain ⟨hm, k, hk⟩ := route_some_position _ _ _ _ hr
      have inner_of : ∀ q : String, beginsWith p q = true →
          q ∈ ["/v3", "/k8s/clusters/", "/meta", "/v1-telemetry"] →
          ∃ e, (newAuthed .tokenAPI .managementAPI .k8sProxy cfg.versionPath).route m p
            = some e := by
        intro q hq hmem
        rw [← Option.isSome_iff_exists]
        simp only [Router.route, List.find?_isSome, newAuthed_routes, hv]
        simp only [List.mem_cons, List.mem_singleton, List.not_mem_nil, or_false] at hmem
        rcases hmem with rfl | rfl | rfl | rfl
        · exact ⟨PathPrefix "/v3" .managementAPI, by simp, by rw [PathPrefix_matches]; exact hq⟩
        · exact ⟨PathPrefix "/k8s/clusters/" .k8sProxy, by simp,
            by rw [PathPrefix_matches]; exact hq⟩
        · exact ⟨PathPrefix "/meta" .managementAPI, by simp, by rw [PathPrefix_matches]; exact hq⟩
        · exact ⟨PathPrefix "/v1-telemetry" .telemetryProxy, by simp,
            by rw [PathPrefix_matches]; exact hq⟩
      revert hh hm
      refine root_entry_cases cfg (fun _ e =>
          (e.handler = authedHandler cfg ∨ e.handler = rawAuthedAPIs cfg) →
          e.matches m p = true →
          ∃ e, (newAuthed .tokenAPI .managementAPI .k8sProxy cfg.versionPath).route m p
            = some e)
        ?_ ?_ ?_ ?_ ?_ ?_ ?_ ?_ ?_ ?_ ?_ ?_ ?_ ?_ ?_ ?_ ?_ ?_ ?_ ?_ ?_ ?_ ?_ k e hk
      all_goals first
        | (cases cfg.dialer <;> intro hh _ <;> exfalso <;>
            simp [connectHandlers, rawAuthedAPIs, authedHandler, uiContent] at hh
           done)
        | (intro _ _ _ hh _; exfalso
           simp [rawAuthedAPIs, authedHandler] at hh)
        | (intro _ hm
           rw [PathPrefix_matches] at hm
           exact inner_of _ hm (by simp))
        | (intro _ hm
           rw [Handle_Methods_matches] at hm
           simp only [Bool.and_eq_true, decide_eq_true_eq] at hm
           exact inner_of "/v3" (by rw [hm.1]; decide) (by simp))
  refine ⟨by simp [newAuthed, Router.add, NewRouter], key, ?_⟩
  obtain ⟨e, he⟩ := key
  exact ⟨e.handler, by simp [Router.dispatch, he]⟩

theorem inner_never_misses_witness :
    (newAuthed .tokenAPI .managementAPI .k8sProxy plainConfig.versionPath).NotFoundHandler
        = none ∧
      (∃ e, (newAuthed .tokenAPI .managementAPI .k8sProxy plainConfig.versionPath).route "GET"
        "/v3/settings/ui-pl" = some e) ∧
      (∃ h, (newAuthed .tokenAPI .managementAPI .k8sProxy plainConfig.versionPath).dispatch "GET"
        "/v3/settings/ui-pl" = some h) :=
  inner_never_misses plainConfig "GET" "/v3/settings/ui-pl" (by decide) (Or.inr (by decide))

end Server
